import Mathlib

/-!
Shallow embedding of the client-side session state machine of
`src/app/page.tsx` (the `ChessGame` component of the multiplayer chess
frontend).

Modelling conventions:
* React `useState` fields become fields of `ClientState`; each
  `socket.on` callback and each user-intent handler becomes a pure
  function `ClientState → … → ClientState` (paired with the list of
  outbound socket messages when the handler can `emit`).
* The mutable `chess` engine instance is kept in lock-step with the
  `fen` state by the source (every `chess.load`/`chess.reset` is
  immediately followed by `setFen` with the same value), so a single
  `fen : String` field models both.  The rules-engine queries
  `chess.moves` and `chess.get` used by the click handler are external
  (chess.js) and are passed in as oracle parameters.
* `playerColor : 'white' | 'black' | null` becomes `Option Color`;
  the `socket` variable is modelled by a Boolean `socket` field that
  records whether `setSocket` has run (the only use in the embedded
  logic is the `!socket` null check in `handleMove`).
* The `move` field of the `move-made` payload is untyped (`any`) and
  never read by the handler, so it is omitted from `MoveData`.
* JS string interpolation of `null` (in the `player-count-update`
  status message) is reproduced by printing `"null"`.
-/

namespace MultiplayerChess

inductive Color where
  | white
  | black
deriving DecidableEq, Repr

/-- The string a `Color` interpolates to in a JS template literal. -/
def colorStr : Color → String
  | Color.white => "white"
  | Color.black => "black"

/-- Interpolation of a possibly-null `playerColor`, as JS renders it. -/
def optColorStr : Option Color → String
  | none => "null"
  | some c => colorStr c

/-- The single-character color tag `'w'`/`'b'` used by chess.js pieces. -/
def colorChar : Color → Char
  | Color.white => 'w'
  | Color.black => 'b'

/-- The `GameState` interface of the source. -/
structure GameState where
  fen : String
  currentTurn : Color
  playerCount : Nat
  gameStarted : Bool
deriving DecidableEq, Repr

/-- The `MoveData` payload of the `move-made` event (the unused untyped
`move` field is omitted). -/
structure MoveData where
  fen : String
  currentTurn : Color
  gameOver : Bool
  inCheck : Bool
  isCheckmate : Bool
  isDraw : Bool
deriving DecidableEq, Repr

/-- The standard initial position produced by `new Chess()` /
`chess.reset()`. -/
def initialFen : String :=
  "rnbqkbnr/pppppppp/8/8/8/8/PPPPPPPP/RNBQKBNR w KQkq - 0 1"

/-- All `useState` fields of the `ChessGame` component that the session
logic reads or writes.  `highlightedSquares` keeps only the keys of the
square-style map (the styles themselves are presentation data). -/
structure ClientState where
  fen : String
  playerColor : Option Color
  gameState : GameState
  gameStatus : String
  isConnected : Bool
  error : String
  gameOver : Bool
  selectedSquare : Option String
  highlightedSquares : List String
  socket : Bool
deriving DecidableEq, Repr

/-- The component's initial state (the `useState` initialisers). -/
def initState : ClientState where
  fen := initialFen
  playerColor := none
  gameState := { fen := initialFen, currentTurn := Color.white, playerCount := 0, gameStarted := false }
  gameStatus := "Waiting for players..."
  isConnected := false
  error := ""
  gameOver := false
  selectedSquare := none
  highlightedSquares := []
  socket := false

/-- Outbound socket messages the client can emit. -/
inductive OutMsg where
  | joinGame
  | makeMove (fromSq toSq : String)
  | newGame
deriving DecidableEq, Repr

/-- The `setSocket(newSocket)` call at the top of the connection effect:
from then on the `socket` variable is non-null. -/
def onSocketInit (s : ClientState) : ClientState :=
  { s with socket := true }

/-- Handler for the `connect` event: mark connected, clear the error and
emit `join-game`. -/
def onConnect (s : ClientState) : ClientState × List OutMsg :=
  ({ s with isConnected := true, error := "" }, [OutMsg.joinGame])

/-- Handler for the `disconnect` event. -/
def onDisconnect (s : ClientState) : ClientState :=
  { s with isConnected := false, gameStatus := "Disconnected from server" }

/-- Handler for the `player-assigned` event. -/
def onPlayerAssigned (s : ClientState) (color : Color) (gs : GameState) : ClientState :=
  { s with
    playerColor := some color
    gameState := gs
    fen := gs.fen
    gameStatus :=
      if gs.gameStarted then "Game in progress"
      else "You are " ++ colorStr color ++ ". Waiting for opponent..." }

/-- Handler for the `game-start` event (payload carries the starting
fen). -/
def onGameStart (s : ClientState) (f : String) : ClientState :=
  { s with
    gameState := { s.gameState with gameStarted := true }
    gameStatus := "Game started! Good luck!"
    fen := f }

/-- Handler for the `player-count-update` event; the payload spreads
`playerCount` and `gameStarted` into `gameState`. -/
def onPlayerCountUpdate (s : ClientState) (count : Nat) (started : Bool) : ClientState :=
  let s1 := { s with gameState := { s.gameState with playerCount := count, gameStarted := started } }
  if !started && count == 1 then
    { s1 with gameStatus := "You are " ++ optColorStr s.playerColor ++ ". Waiting for opponent..." }
  else
    s1

/-- Handler for the `move-made` event. -/
def onMoveMade (s : ClientState) (d : MoveData) : ClientState :=
  let s1 := { s with fen := d.fen, gameState := { s.gameState with currentTurn := d.currentTurn } }
  if d.gameOver then
    let s2 := { s1 with gameOver := true }
    if d.isCheckmate then
      let winner := if d.currentTurn == Color.white then "Black" else "White"
      { s2 with gameStatus := "Checkmate! " ++ winner ++ " wins!" }
    else if d.isDraw then
      { s2 with gameStatus := "Game ended in a draw" }
    else
      s2
  else if d.inCheck then
    { s1 with gameStatus := (if d.currentTurn == Color.white then "White" else "Black") ++ " is in check!" }
  else
    { s1 with gameStatus := (if d.currentTurn == Color.white then "White" else "Black") ++ "\x27s turn" }

/-- Handler for the `game-over` event. -/
def onGameOverEvent (s : ClientState) (result reason : String) : ClientState :=
  { s with
    gameOver := true
    gameStatus :=
      if result == "draw" then "Game ended in a draw"
      else (if result == "white" then "White" else "Black") ++ " wins by " ++ reason ++ "!" }

/-- Handler for the `game-full` event. -/
def onGameFull (s : ClientState) : ClientState :=
  { s with error := "Game is full. Only 2 players allowed." }

/-- Handler for the `move-error` event. -/
def onMoveError (s : ClientState) (errorMsg : String) : ClientState :=
  { s with error := errorMsg }

/-- Handler for the `player-disconnected` event; the payload spreads
`playerCount` and `gameStarted` into `gameState`. -/
def onPlayerDisconnected (s : ClientState) (count : Nat) (started : Bool) : ClientState :=
  { s with
    gameState := { s.gameState with playerCount := count, gameStarted := started }
    gameStatus := "Opponent disconnected. Waiting for new player..."
    gameOver := false }

/-- Handler for the `game-reset` event. -/
def onGameReset (s : ClientState) : ClientState :=
  { s with
    fen := initialFen
    gameState := { fen := initialFen, currentTurn := Color.white, playerCount := 0, gameStarted := false }
    gameStatus := "Game reset. Waiting for players..."
    gameOver := false
    error := "" }

/-- `handleMove`: the move-intent submission used by both the drag drop
and (indirectly) the click-to-move path.  Returns the next state and the
list of emitted messages. -/
def handleMove (s : ClientState) (sourceSquare targetSquare : String) : ClientState × List OutMsg :=
  if !s.socket || s.playerColor == none || some s.gameState.currentTurn != s.playerColor || s.gameOver then
    (s, [])
  else
    ({ s with error := "" }, [OutMsg.makeMove sourceSquare targetSquare])

/-- `handleNewGame`: emits `new-game`, no local state change. -/
def handleNewGame (s : ClientState) : ClientState × List OutMsg :=
  if s.socket then (s, [OutMsg.newGame]) else (s, [])

/-- The `isMyTurn` derived flag of the source. -/
def isMyTurn (s : ClientState) : Bool :=
  (s.playerColor == some s.gameState.currentTurn) && s.gameState.gameStarted && !s.gameOver

/-- The early-return condition of `handleMove`, negated: the predicate
under which a move submission is accepted. -/
def handleMoveGuard (s : ClientState) : Bool :=
  !(!s.socket || s.playerColor == none || some s.gameState.currentTurn != s.playerColor || s.gameOver)

/-- The early-return condition of `handleSquareClick`, negated: the
predicate under which a square click is processed. -/
def handleSquareClickGuard (s : ClientState) : Bool :=
  !(s.playerColor == none || some s.gameState.currentTurn != s.playerColor || s.gameOver)

/-- The `allowDrag` callback passed to the board widget. -/
def allowDrag (s : ClientState) (piece : String) : Bool :=
  if s.playerColor == none || s.gameOver then false
  else
    s.gameState.gameStarted &&
    (some s.gameState.currentTurn == s.playerColor) &&
    (piece.get? 0 == some (if s.playerColor == some Color.white then 'w' else 'b'))

/-- `highlightLegalMoves`: with no legal moves the highlight map is left
as it was; otherwise it is replaced by the destination squares.  (The
stray in-place write to the old map in the source has no observable
effect, since the map is then replaced wholesale.)  `moves` is the
chess.js legal-destination oracle at the current position. -/
def highlightLegalMoves (moves : String → List String) (square : String)
    (old : List String) : List String :=
  if moves square = [] then old else moves square

/-- `handleSquareClick`: the click-to-move path.  `moves` is the
chess.js legal-destination oracle and `pieceAt` the `chess.get` color
oracle, both at the current position. -/
def handleSquareClick (moves : String → List String) (pieceAt : String → Option Char)
    (s : ClientState) (square : String) : ClientState × List OutMsg :=
  if s.playerColor == none || some s.gameState.currentTurn != s.playerColor || s.gameOver then
    (s, [])
  else
    match s.selectedSquare with
    | some sel =>
      if square ∈ moves sel then
        let r := handleMove s sel square
        ({ r.1 with selectedSquare := none, highlightedSquares := [] }, r.2)
      else if pieceAt square == some (if s.playerColor == some Color.white then 'w' else 'b') then
        ({ s with
            selectedSquare := some square
            highlightedSquares := highlightLegalMoves moves square s.highlightedSquares }, [])
      else
        ({ s with selectedSquare := none, highlightedSquares := [] }, [])
    | none =>
      if pieceAt square == some (if s.playerColor == some Color.white then 'w' else 'b') then
        ({ s with
            selectedSquare := some square
            highlightedSquares := highlightLegalMoves moves square s.highlightedSquares }, [])
      else
        (s, [])

/-- Inbound channel events plus the socket-creation lifecycle step and
the fire-and-forget user intents, for defining reachability.  (Click
gestures are excluded here because they depend on the external rules
engine; their only state effects are on `error`, `selectedSquare` and
`highlightedSquares`.) -/
inductive InEvent where
  | socketInit
  | connect
  | disconnect
  | playerAssigned (color : Color) (gs : GameState)
  | gameStart (fen : String)
  | playerCountUpdate (count : Nat) (started : Bool)
  | moveMade (d : MoveData)
  | gameOverEvent (result reason : String)
  | gameFull
  | moveError (msg : String)
  | playerDisconnected (count : Nat) (started : Bool)
  | gameReset
  | submitMove (fromSq toSq : String)
  | newGame
deriving DecidableEq, Repr

/-- One transition of the client state machine (outbound messages
dropped). -/
def step (s : ClientState) : InEvent → ClientState
  | InEvent.socketInit => onSocketInit s
  | InEvent.connect => (onConnect s).1
  | InEvent.disconnect => onDisconnect s
  | InEvent.playerAssigned color gs => onPlayerAssigned s color gs
  | InEvent.gameStart f => onGameStart s f
  | InEvent.playerCountUpdate count started => onPlayerCountUpdate s count started
  | InEvent.moveMade d => onMoveMade s d
  | InEvent.gameOverEvent result reason => onGameOverEvent s result reason
  | InEvent.gameFull => onGameFull s
  | InEvent.moveError msg => onMoveError s msg
  | InEvent.playerDisconnected count started => onPlayerDisconnected s count started
  | InEvent.gameReset => onGameReset s
  | InEvent.submitMove fromSq toSq => (handleMove s fromSq toSq).1
  | InEvent.newGame => (handleNewGame s).1

/-- Run a sequence of events from the initial state. -/
def run (es : List InEvent) : ClientState :=
  es.foldl step initState

/-- A state is reachable when some event sequence produces it. -/
def Reachable (s : ClientState) : Prop :=
  ∃ es : List InEvent, run es = s

/-- The spec's ACTIVE phase, as the code realises it: game started and
not over. -/
def phaseActive (s : ClientState) : Bool :=
  s.gameState.gameStarted && !s.gameOver

/-- A fen string after 1. e4, used as a concrete authoritative position
in several scenarios. -/
def fenAfterE4 : String :=
  "rnbqkbnr/pppppppp/8/8/4P3/8/PPPP1PPP/RNBQKBNR b KQkq - 0 1"

/-- Trace: socket created, connected, seated as white while the game has
not started yet (`gameStarted = false`, one player). -/
def c1trace : List InEvent :=
  [InEvent.socketInit, InEvent.connect,
   InEvent.playerAssigned Color.white
     { fen := initialFen, currentTurn := Color.white, playerCount := 1, gameStarted := false }]

/-- The state reached by `c1trace`: seat = white = side-to-move, game not
started, not over, socket live. -/
def c1state : ClientState := run c1trace

/-- A seated, not-yet-started state used to separate the three
eligibility checks. -/
def c2state : ClientState :=
  { initState with
    socket := true
    isConnected := true
    playerColor := some Color.white
    gameState := { fen := initialFen, currentTurn := Color.white, playerCount := 1, gameStarted := false } }

/-- An ACTIVE state with seat = white = side-to-move, used when a claim
needs a live game. -/
def c2activeState : ClientState :=
  { c2state with
    gameState := { fen := initialFen, currentTurn := Color.white, playerCount := 2, gameStarted := true } }

/-- Legal-destination oracle at the initial position, restricted to the
e2 pawn. -/
def c3moves : String → List String :=
  fun sq => if sq = "e2" then ["e3", "e4"] else []

/-- Piece-color oracle at the initial position, restricted to the e2
pawn. -/
def c3pieceAt : String → Option Char :=
  fun sq => if sq = "e2" then some 'w' else none

/-- Trace reaching an ACTIVE state seated as white with white to move. -/
def c3base : ClientState :=
  run [InEvent.socketInit, InEvent.connect,
       InEvent.playerAssigned Color.white
         { fen := initialFen, currentTurn := Color.white, playerCount := 2, gameStarted := true }]

/-- The state after clicking e2 in `c3base`: e2 selected, its legal
destinations highlighted. -/
def c3sel : ClientState := (handleSquareClick c3moves c3pieceAt c3base "e2").1

/-- An ordinary (non-terminal) opponent-move payload. -/
def c3data : MoveData :=
  { fen := fenAfterE4, currentTurn := Color.black, gameOver := false,
    inCheck := false, isCheckmate := false, isDraw := false }

/-- Trace: socket created and connected, but no seat ever assigned. -/
def c4base : ClientState := run [InEvent.socketInit, InEvent.connect]

/-- A move payload delivered before any seat assignment. -/
def c4data : MoveData :=
  { fen := fenAfterE4, currentTurn := Color.black, gameOver := false,
    inCheck := false, isCheckmate := false, isDraw := false }

/-- An ACTIVE state for the checkmate scenario. -/
def c5state : ClientState :=
  run [InEvent.socketInit, InEvent.connect,
       InEvent.playerAssigned Color.white
         { fen := initialFen, currentTurn := Color.white, playerCount := 2, gameStarted := true }]

/-- A checkmate payload with black to move (black is mated). -/
def c5data : MoveData :=
  { fen := fenAfterE4, currentTurn := Color.black, gameOver := true,
    inCheck := false, isCheckmate := true, isDraw := false }

/-- A terminal payload carrying neither checkmate nor draw. -/
def c10data : MoveData :=
  { fen := fenAfterE4, currentTurn := Color.black, gameOver := true,
    inCheck := false, isCheckmate := false, isDraw := false }

/-- C1, counterexample: in the reachable state `c1state` the game has not
started (phase is not ACTIVE), yet `handleMove` emits a `make-move`
message — the claim that emission happens only in phase ACTIVE fails. -/
theorem C1_counterexample :
    Reachable c1state ∧
    c1state.gameState.gameStarted = false ∧
    phaseActive c1state = false ∧
    (handleMove c1state "e2" "e4").2 = [OutMsg.makeMove "e2" "e4"] :=
  ⟨⟨c1trace, rfl⟩, by decide, by decide, by decide⟩

/-- C1, amended: `handleMove` emits a `make-move` message exactly when
the socket exists, a seat is assigned, the local seat equals
side-to-move, and the game-over flag is clear; the game-started flag and
any outstanding-move state are not consulted, and in every other case
the intent is dropped silently with no state change and no outbound
message. -/
theorem C1_amended (s : ClientState) (src dst : String) :
    handleMove s src dst =
      if s.socket = true ∧ s.playerColor = some s.gameState.currentTurn ∧ s.gameOver = false then
        ({ s with error := "" }, [OutMsg.makeMove src dst])
      else (s, []) := by
  rcases s with ⟨f, pc, ⟨gf, turn, cnt, started⟩, st, conn, err, go, sel, hl, sock⟩
  cases sock <;> cases go <;> rcases pc with _ | c
  all_goals
    first
      | (cases c <;> cases turn <;> simp [handleMove])
      | simp [handleMove]

/-- C2, counterexample: in the seated, not-yet-started state `c2state`
holding a white piece, drag is disabled (`allowDrag` is false because it
checks `gameStarted`) while both the click guard and the move-submission
guard accept — the three eligibility checks are not the same predicate. -/
theorem C2_counterexample :
    allowDrag c2state "wP" = false ∧
    handleSquareClickGuard c2state = true ∧
    handleMoveGuard c2state = true := by
  refine ⟨by decide, by decide, by decide⟩

/-- C2, amended: the three checks share the seat/turn/game-over core but
are not identical: the move-submission guard is exactly the click guard
strengthened by the socket null check, and drag-enablement implies the
click guard (it additionally requires `gameStarted` and ownership of the
dragged piece, so the converse fails). -/
theorem C2_amended (s : ClientState) (piece : String) :
    handleMoveGuard s = (s.socket && handleSquareClickGuard s) ∧
    (allowDrag s piece = true → handleSquareClickGuard s = true) := by
  rcases s with ⟨f, pc, ⟨gf, turn, cnt, started⟩, st, conn, err, go, sel, hl, sock⟩
  cases sock <;> cases go <;> rcases pc with _ | c
  all_goals
    first
      | (cases c <;> cases turn <;> cases started <;>
          simp [handleMoveGuard, handleSquareClickGuard, allowDrag])
      | simp [handleMoveGuard, handleSquareClickGuard, allowDrag]

/-- C2, witness for the amended theorem at the ACTIVE state
`c2activeState` with the white piece string. -/
theorem C2_amended_witness :
    handleMoveGuard c2activeState = (c2activeState.socket && handleSquareClickGuard c2activeState) ∧
    (allowDrag c2activeState "wP" = true → handleSquareClickGuard c2activeState = true) :=
  C2_amended c2activeState "wP"

/-- C3, counterexample: in the reachable ACTIVE state `c3sel`, square e2
is selected with its destinations highlighted; after an authoritative
`move-made` event, and likewise after a channel disconnect, the
selection and the highlights are still present — neither handler clears
them, contrary to the claim. -/
theorem C3_counterexample :
    c3sel.selectedSquare = some "e2" ∧
    c3sel.highlightedSquares = ["e3", "e4"] ∧
    (onMoveMade c3sel c3data).selectedSquare = some "e2" ∧
    (onMoveMade c3sel c3data).highlightedSquares = ["e3", "e4"] ∧
    (onDisconnect c3sel).selectedSquare = some "e2" ∧
    (onDisconnect c3sel).highlightedSquares = ["e3", "e4"] := by
  refine ⟨by decide, by decide, by decide, by decide, by decide, by decide⟩

/-- C3, amended: no channel event clears the selection — every handler
(including `move-made` and `disconnect`) leaves `selectedSquare` and
`highlightedSquares` exactly as they were; selection is cleared only
inside the click handler itself. -/
theorem C3_amended (s : ClientState) (e : InEvent) :
    (step s e).selectedSquare = s.selectedSquare ∧
    (step s e).highlightedSquares = s.highlightedSquares := by
  cases e
  case moveMade d =>
    rcases d with ⟨f, t, go, ic, icm, idr⟩
    cases go <;> cases icm <;> cases idr <;> cases ic <;> exact ⟨rfl, rfl⟩
  case playerCountUpdate count started =>
    simp only [step, onPlayerCountUpdate]
    split <;> exact ⟨rfl, rfl⟩
  case submitMove a b =>
    simp only [step, handleMove]
    split <;> exact ⟨rfl, rfl⟩
  case newGame =>
    simp only [step, handleNewGame]
    split <;> exact ⟨rfl, rfl⟩
  all_goals exact ⟨rfl, rfl⟩

/-- C4, counterexample: `c4base` is reachable and has no seat assigned,
yet a `move-made` event changes the position and the side-to-move — the
event is applied, not ignored. -/
theorem C4_counterexample :
    Reachable c4base ∧
    c4base.playerColor = none ∧
    (onMoveMade c4base c4data).fen ≠ c4base.fen ∧
    (onMoveMade c4base c4data).gameState.currentTurn ≠ c4base.gameState.currentTurn := by
  refine ⟨⟨[InEvent.socketInit, InEvent.connect], rfl⟩, by decide, by decide, by decide⟩

/-- C4, amended: a `move-made` event is applied unconditionally — even
with no seat assigned the client overwrites its position and
side-to-move from the payload (it does not crash, but it does not ignore
the event either). -/
theorem C4_amended (s : ClientState) (d : MoveData) (h : s.playerColor = none) :
    (onMoveMade s d).fen = d.fen ∧
    (onMoveMade s d).gameState.currentTurn = d.currentTurn ∧
    (onMoveMade s d).playerColor = none := by
  rcases d with ⟨f, t, go, ic, icm, idr⟩
  cases go <;> cases icm <;> cases idr <;> cases ic <;> simp [onMoveMade, h]

/-- C4, witness for the amended theorem: the seatless state `c4base`
with the payload `c4data`. -/
theorem C4_amended_witness :
    (onMoveMade c4base c4data).fen = c4data.fen ∧
    (onMoveMade c4base c4data).gameState.currentTurn = c4data.currentTurn ∧
    (onMoveMade c4base c4data).playerColor = none :=
  C4_amended c4base c4data (by decide)

/-- C5: in an ACTIVE state, a `move-made` payload with `gameOver = true`,
`isCheckmate = true` and `currentTurn = black` ends the game with the
status "Checkmate! White wins!" — the declared winner is the side
opposite the payload's side-to-move. -/
theorem C5_checkmate_winner (s : ClientState) (d : MoveData)
    (_hs : s.gameState.gameStarted = true) (_ho : s.gameOver = false)
    (hg : d.gameOver = true) (hc : d.isCheckmate = true)
    (ht : d.currentTurn = Color.black) :
    (onMoveMade s d).gameOver = true ∧
    (onMoveMade s d).gameStatus = "Checkmate! White wins!" := by
  rcases d with ⟨f, t, go, ic, icm, idr⟩
  cases hg; cases hc; cases ht
  exact ⟨rfl, rfl⟩

/-- C5, witness: the ACTIVE state `c5state` with the black-is-mated
payload `c5data`. -/
theorem C5_checkmate_winner_witness :
    (onMoveMade c5state c5data).gameOver = true ∧
    (onMoveMade c5state c5data).gameStatus = "Checkmate! White wins!" :=
  C5_checkmate_winner c5state c5data (by decide) (by decide) rfl rfl rfl

/-- C6: a `game-reset` event followed immediately by a `game-start`
event carrying position `p0` leaves the client with position `p0`,
`gameStarted = true` and `gameOver = false` (phase ACTIVE), whatever the
prior state was. -/
theorem C6_reset_start_roundtrip (s : ClientState) (p0 : String) :
    (onGameStart (onGameReset s) p0).fen = p0 ∧
    (onGameStart (onGameReset s) p0).gameState.gameStarted = true ∧
    (onGameStart (onGameReset s) p0).gameOver = false ∧
    phaseActive (onGameStart (onGameReset s) p0) = true :=
  ⟨rfl, rfl, rfl, rfl⟩

/-- C7: a `move-error` event changes only the surfaced error message —
position, side-to-move, seat, player count, the started and over flags,
the status text and the selection are all untouched, so the derived
phase (in particular ACTIVE) is preserved. -/
theorem C7_move_error_frame (s : ClientState) (msg : String) :
    (onMoveError s msg).error = msg ∧
    (onMoveError s msg).fen = s.fen ∧
    (onMoveError s msg).gameState.currentTurn = s.gameState.currentTurn ∧
    (onMoveError s msg).playerColor = s.playerColor ∧
    (onMoveError s msg).gameState.playerCount = s.gameState.playerCount ∧
    (onMoveError s msg).gameState.gameStarted = s.gameState.gameStarted ∧
    (onMoveError s msg).gameOver = s.gameOver ∧
    (onMoveError s msg).gameStatus = s.gameStatus ∧
    (onMoveError s msg).selectedSquare = s.selectedSquare ∧
    phaseActive (onMoveError s msg) = phaseActive s :=
  ⟨rfl, rfl, rfl, rfl, rfl, rfl, rfl, rfl, rfl, rfl⟩

/-- C8: a `game-reset` event restores the initial position, clears the
game-over flag, the error and the seat-occupancy display (player count
0, game not started — the WAITING_FOR_OPPONENT phase), and leaves the
local seat assignment untouched. -/
theorem C8_game_reset (s : ClientState) :
    (onGameReset s).fen = initialFen ∧
    (onGameReset s).gameState.fen = initialFen ∧
    (onGameReset s).gameOver = false ∧
    (onGameReset s).gameState.playerCount = 0 ∧
    (onGameReset s).gameState.gameStarted = false ∧
    (onGameReset s).error = "" ∧
    (onGameReset s).playerColor = s.playerColor :=
  ⟨rfl, rfl, rfl, rfl, rfl, rfl, rfl⟩

/-- C9: the `move-made` handler is idempotent — delivering the same
payload twice in a row produces exactly the state produced by
delivering it once. -/
theorem C9_move_made_idempotent (s : ClientState) (d : MoveData) :
    onMoveMade (onMoveMade s d) d = onMoveMade s d := by
  rcases d with ⟨f, t, go, ic, icm, idr⟩
  cases go <;> cases icm <;> cases idr <;> cases ic <;> rfl

/-- C10: a `move-made` payload with `gameOver = true` but neither
checkmate nor draw sets the game-over flag — blocking any further move
submission — while the status message keeps its prior value, so no
terminal outcome is surfaced. -/
theorem C10_silent_terminal (s : ClientState) (d : MoveData)
    (hg : d.gameOver = true) (hc : d.isCheckmate = false) (hd : d.isDraw = false) :
    (onMoveMade s d).gameOver = true ∧
    (onMoveMade s d).gameStatus = s.gameStatus ∧
    ∀ src dst : String, (handleMove (onMoveMade s d) src dst).2 = [] := by
  rcases d with ⟨f, t, go, ic, icm, idr⟩
  cases hg; cases hc; cases hd
  refine ⟨rfl, rfl, fun src dst => ?_⟩
  simp [handleMove, onMoveMade]

/-- C10, witness: the ACTIVE state `c2activeState` with the bare
terminal payload `c10data`. -/
theorem C10_silent_terminal_witness :
    (onMoveMade c2activeState c10data).gameOver = true ∧
    (onMoveMade c2activeState c10data).gameStatus = c2activeState.gameStatus ∧
    ∀ src dst : String, (handleMove (onMoveMade c2activeState c10data) src dst).2 = [] :=
  C10_silent_terminal c2activeState c10data rfl rfl rfl

end MultiplayerChess
